import Mathlib

/-!
Shallow embedding of `telegram_phone_number_checker/main.py`.

The program orchestrates: parse a comma-separated phone-number string,
check which numbers are already contacts, temporarily import the missing
ones, fetch each number's profile, and finally delete the temporary
contacts (in a `finally` block).  Remote calls are modelled by an
environment `Env` of oracles; the remote contact list is threaded as
explicit state.
-/

/-- Characters of a string, as produced by iterating over a Python `str`. -/
def strChars (s : String) : List Char := s.data

/-- Python `s.replace(" ", "")`: remove every space character. -/
def stripSpaces (s : String) : String :=
  String.mk (s.data.filter (fun c => c ≠ ' '))

/-- Python `s.replace("+", "").replace(" ", "")`: remove every plus sign and
every space character (the normalisation done in `_is_phone_number_a_contact`). -/
def stripPlusSpaces (s : String) : String :=
  String.mk (s.data.filter (fun c => c ≠ '+' ∧ c ≠ ' '))

/-- Python `str.split(",")` on the character list: empty pieces are kept and
splitting the empty string yields one empty piece. -/
def splitCommaChars : List Char → List (List Char)
  | [] => [[]]
  | c :: rest =>
    let r := splitCommaChars rest
    if c = ',' then [] :: r
    else
      match r with
      | [] => [[c]]
      | g :: gs => (c :: g) :: gs

/-- Python `s.split(",")`. -/
def pySplitComma (s : String) : List String :=
  (splitCommaChars s.data).map String.mk

/-- A timestamp as carried by `UserStatusOffline.was_online`. -/
structure PyDateTime where
  year : Nat
  month : Nat
  day : Nat
  hour : Nat
  minute : Nat
  second : Nat
  tzname : String
  deriving DecidableEq

/-- Presence-status variants (`telethon` `TypeUserStatus`), a closed set plus
a catch-all for unrecognized variants. -/
inductive UserStatus where
  | empty : UserStatus
  | online (expires : Int) : UserStatus
  | offline (was_online : PyDateTime) : UserStatus
  | recently : UserStatus
  | lastWeek : UserStatus
  | lastMonth : UserStatus
  | other (tag : String) : UserStatus
  deriving DecidableEq

/-- Zero-pad a natural number to two digits, as `strftime` does for
`%m`, `%d`, `%H`, `%M`, `%S`. -/
def pad2 (n : Nat) : String :=
  if n < 10 then "0" ++ toString n else toString n

/-- Zero-pad a year to four digits, as `strftime` does for `%Y`. -/
def pad4 (n : Nat) : String :=
  if n < 10 then "000" ++ toString n
  else if n < 100 then "00" ++ toString n
  else if n < 1000 then "0" ++ toString n
  else toString n

/-- Python `dt.strftime("%Y-%m-%d %H:%M:%S %Z")`. -/
def strftimeFmt (d : PyDateTime) : String :=
  pad4 d.year ++ "-" ++ pad2 d.month ++ "-" ++ pad2 d.day ++ " " ++
    pad2 d.hour ++ ":" ++ pad2 d.minute ++ ":" ++ pad2 d.second ++ " " ++ d.tzname

/-- Source `get_human_readable_status` (main.py lines 24-39). -/
def get_human_readable_status (status : UserStatus) : String :=
  match status with
  | .empty => "Unknown"
  | .online _ => "Currently online"
  | .offline was_online => strftimeFmt was_online
  | .recently => "Last seen recently"
  | .lastWeek => "Last seen last week"
  | .lastMonth => "Last seen last month"
  | .other _ => "Unknown status returned"

/-- A remote account as seen through the telethon `User` object: exactly the
fields the program reads. -/
structure User where
  id : Int
  access_hash : Int
  username : Option String
  usernames : Option (List String)
  first_name : Option String
  last_name : Option String
  fake : Bool
  verified : Bool
  premium : Bool
  mutual_contact : Bool
  bot : Bool
  bot_chat_history : Bool
  restricted : Bool
  restriction_reason : Option (List String)
  status : UserStatus
  deleted : Bool
  phone : Option String
  deriving DecidableEq

/-- The dict built by `get_user_info` (main.py lines 51-68). -/
structure ProfileRecord where
  id : Int
  username : Option String
  usernames : Option (List String)
  first_name : Option String
  last_name : Option String
  fake : Bool
  verified : Bool
  premium : Bool
  mutual_contact : Bool
  bot : Bool
  bot_chat_history : Bool
  restricted : Bool
  restriction_reason : Option (List String)
  user_was_online : String
  deleted : Bool
  phone : Option String
  deriving DecidableEq

/-- Exceptions a remote call can raise.  `valueError` is the `ValueError`
that `get_peer_id` raises when no account is associated with the number;
`indexError` models `users[0]` on an empty list; `remote` is any other
failure (network, auth, malformed response). -/
inductive RpcError where
  | valueError : RpcError
  | indexError : RpcError
  | remote (msg : String) : RpcError
  deriving DecidableEq

/-- Oracles for the remote service.  `get_peer_id` and `getFullUser` drive the
Profile Fetcher; `accountFor` drives `ImportContactsRequest`: for each
submitted phone, the account (if any) the service creates a contact for and
reports back in `ImportedContacts.users`. -/
structure Env where
  get_peer_id : String → Except RpcError Int
  getFullUser : Int → Except RpcError (List User)
  accountFor : String → Option User

/-- Project a telethon user into the result dict, as in main.py lines 51-68
(the `id` field is the resolved peer id, not `user.id`). -/
def mkProfileRecord (peer_id : Int) (u : User) : ProfileRecord :=
  ⟨peer_id, u.username, u.usernames, u.first_name, u.last_name, u.fake,
    u.verified, u.premium, u.mutual_contact, u.bot, u.bot_chat_history,
    u.restricted, u.restriction_reason, get_human_readable_status u.status,
    u.deleted, u.phone⟩

/-- Source `get_user_info` (main.py lines 42-68).  Returns `.ok none` for the
empty dict `{}`; only the `ValueError` from `get_peer_id` is caught. -/
def get_user_info (env : Env) (phone_number : String) :
    Except RpcError (Option ProfileRecord) :=
  match env.get_peer_id phone_number with
  | .error .valueError => .ok none
  | .error e => .error e
  | .ok peer_id =>
    match env.getFullUser peer_id with
    | .error e => .error e
    | .ok [] => .error .indexError
    | .ok (user :: _) => .ok (some (mkProfileRecord peer_id user))

/-- Python truthiness of `contact.phone` followed by `.replace(" ", "")`:
`None` and the empty string both map to `None` (main.py lines 75-77). -/
def normalizedContactNumber (phone : Option String) : Option String :=
  match phone with
  | none => none
  | some s => if s = "" then none else some (stripSpaces s)

/-- Source `_is_phone_number_a_contact` (main.py lines 71-80): the loop
returns true on the first contact whose normalised number equals the
normalised target; a `None` normalised number never equals the target. -/
def _is_phone_number_a_contact (contacts : List User) (phone_number : String) : Bool :=
  let normalized_target_number := stripPlusSpaces phone_number
  contacts.any (fun contact =>
    normalizedContactNumber contact.phone = some normalized_target_number)

/-- Source `_create_temp_contacts` (main.py lines 83-96): submits every
number; `ImportedContacts.users` holds one user per number the service
actually created a contact for. -/
def _create_temp_contacts (env : Env) (numbers : List String) : List User :=
  numbers.filterMap env.accountFor

/-- Source `_get_numbers_not_in_contacts` (main.py lines 99-104). -/
def _get_numbers_not_in_contacts (contacts : List User) (numbers : List String) :
    List String :=
  numbers.filter (fun number => !_is_phone_number_a_contact contacts number)

/-- The string actually parsed (main.py lines 111-112): the argument when it
is a non-empty string, otherwise what `input(...)` returns. -/
def effectiveInput (phone_numbers : Option String) (stdin : String) : String :=
  match phone_numbers with
  | none => stdin
  | some s0 => if s0 = "" then stdin else s0

/-- The parse of the input string in main.py line 113:
`set(phone_numbers.replace(" ", "").split(","))`.  A Python set is an
unordered duplicate-free collection; we model it as a duplicate-free list. -/
def cleanedNumbers (phone_numbers : String) : List String :=
  (pySplitComma (stripSpaces phone_numbers)).dedup

/-- The sequential dict comprehension of main.py line 121: fetch each number
in turn; the first exception aborts the whole batch. -/
def fetchAll (env : Env) : List String → Except RpcError (List (String × Option ProfileRecord))
  | [] => .ok []
  | p :: ps =>
    match get_user_info env p with
    | .error e => .error e
    | .ok r =>
      match fetchAll env ps with
      | .error e => .error e
      | .ok rest => .ok ((p, r) :: rest)

/-- Everything observable about one run of `validate_users`: the returned (or
aborted) result set, the remote contact list after the run, and the arguments
of the import and delete requests that were issued. -/
structure RunResult where
  result : Except RpcError (List (String × Option ProfileRecord))
  finalContacts : List User
  importCalled : Bool
  cleanupRan : Bool
  importedPhones : List String
  importedUsers : List User
  deleted : List (Int × Int)

/-- Source `validate_users` (main.py lines 107-129) together with the remote
service's state transitions.  `contacts0` is the operator's contact list when
the run starts; `stdin` is what `input(...)` would return when
`phone_numbers` is `None` or empty.  `ImportContactsRequest` appends the
created users to the contact list; the `finally` block (lines 122-129) runs
whether the fetch succeeded or raised, sending `DeleteContactsRequest` with
one `InputUser(user_id, access_hash)` per user of the import record, which
removes the contacts with those user ids. -/
def validate_users (env : Env) (contacts0 : List User)
    (phone_numbers : Option String) (stdin : String) : RunResult :=
  let s := effectiveInput phone_numbers stdin
  let cleaned_numbers := cleanedNumbers s
  let numbers_not_in_contacts := _get_numbers_not_in_contacts contacts0 cleaned_numbers
  let importCalled := !numbers_not_in_contacts.isEmpty
  let importedUsers :=
    if importCalled then _create_temp_contacts env numbers_not_in_contacts else []
  let contactsAfterImport := contacts0 ++ importedUsers
  let result := fetchAll env cleaned_numbers
  let to_delete :=
    if importCalled then importedUsers.map (fun user => (user.id, user.access_hash))
    else []
  let finalContacts :=
    if importCalled then
      contactsAfterImport.filter (fun c => !to_delete.any (fun p => p.1 = c.id))
    else contactsAfterImport
  ⟨result, finalContacts, importCalled, importCalled,
    if importCalled then numbers_not_in_contacts else [], importedUsers, to_delete⟩

/-! ### Result Reporter: `show_results` and `json.dumps(..., indent=4)` -/

/-- Hex digit used by JSON `\uXXXX` escapes (lowercase, as Python emits). -/
def hexDigit (n : Nat) : Char :=
  if n < 10 then Char.ofNat (48 + n) else Char.ofNat (87 + n)

/-- Four-digit hexadecimal rendering of a code unit below 0x10000. -/
def hex4 (n : Nat) : String :=
  String.mk [hexDigit (n / 4096 % 16), hexDigit (n / 256 % 16),
    hexDigit (n / 16 % 16), hexDigit (n % 16)]

/-- JSON escape of one character, following Python `json.dumps` defaults
(`ensure_ascii=True`): non-ASCII characters become `\uXXXX` escapes, with
surrogate pairs above 0xFFFF. -/
def jsonEscapeChar (c : Char) : String :=
  if c = '"' then "\\\""
  else if c = '\\' then "\\\\"
  else if c = '\n' then "\\n"
  else if c = '\t' then "\\t"
  else if c = '\r' then "\\r"
  else if c.toNat = 8 then "\\b"
  else if c.toNat = 12 then "\\f"
  else if c.toNat < 32 then "\\u" ++ hex4 c.toNat
  else if c.toNat < 127 then String.mk [c]
  else if c.toNat < 65536 then "\\u" ++ hex4 c.toNat
  else
    let v := c.toNat - 65536
    "\\u" ++ hex4 (55296 + v / 1024) ++ "\\u" ++ hex4 (56320 + v % 1024)

/-- JSON string literal, quotes included. -/
def jsonStr (s : String) : String :=
  "\"" ++ String.join (s.data.map jsonEscapeChar) ++ "\""

/-- JSON rendering of an optional string: `null` or a string literal. -/
def jsonOptStr : Option String → String
  | none => "null"
  | some s => jsonStr s

/-- JSON rendering of a boolean. -/
def jsonBool (b : Bool) : String := if b then "true" else "false"

/-- JSON rendering of an optional list of strings, on one line as
`json.dumps` renders an empty or absent list field... a non-empty list is
spread over lines at the given indent depth. -/
def jsonOptStrList (indentSpaces : String) : Option (List String) → String
  | none => "null"
  | some [] => "[]"
  | some (x :: xs) =>
    "[\x0a" ++ indentSpaces ++ "    " ++ jsonStr x ++
      String.join (xs.map (fun y => ",\x0a" ++ indentSpaces ++ "    " ++ jsonStr y)) ++
      "\x0a" ++ indentSpaces ++ "]"

/-- One `"key": value` line set for a profile record, in the insertion order
of main.py lines 51-68, indented for nesting depth 1 (8 spaces). -/
def jsonProfileFields (r : ProfileRecord) : List (String × String) :=
  [("id", toString r.id),
   ("username", jsonOptStr r.username),
   ("usernames", jsonOptStrList "        " r.usernames),
   ("first_name", jsonOptStr r.first_name),
   ("last_name", jsonOptStr r.last_name),
   ("fake", jsonBool r.fake),
   ("verified", jsonBool r.verified),
   ("premium", jsonBool r.premium),
   ("mutual_contact", jsonBool r.mutual_contact),
   ("bot", jsonBool r.bot),
   ("bot_chat_history", jsonBool r.bot_chat_history),
   ("restricted", jsonBool r.restricted),
   ("restriction_reason", jsonOptStrList "        " r.restriction_reason),
   ("user_was_online", jsonStr r.user_was_online),
   ("deleted", jsonBool r.deleted),
   ("phone", jsonOptStr r.phone)]

/-- Render a list of `"key": value` pairs as a JSON object at the given
nesting depth with `indent=4` (Python separators `(",", ": ")`). -/
def jsonObjAt (indentSpaces : String) : List (String × String) → String
  | [] => "\x7b\x7d"
  | kv :: kvs =>
    "\x7b\x0a" ++ indentSpaces ++ "    " ++ jsonStr kv.1 ++ ": " ++ kv.2 ++
      String.join (kvs.map (fun p =>
        ",\x0a" ++ indentSpaces ++ "    " ++ jsonStr p.1 ++ ": " ++ p.2)) ++
      "\x0a" ++ indentSpaces ++ "\x7d"

/-- `json.dumps(value, indent=4)` for one result-dict value: `{}` for the
empty record, else the full profile object nested at depth 1. -/
def jsonProfileValue : Option ProfileRecord → String
  | none => "\x7b\x7d"
  | some r => jsonObjAt "    " (jsonProfileFields r)

/-- `json.dumps(res, indent=4)` for the whole result dict. -/
def jsonDumpResult (res : List (String × Option ProfileRecord)) : String :=
  jsonObjAt "" (res.map (fun kv => (kv.1, jsonProfileValue kv.2)))

/-- A file system: contents by path. -/
def FileSystem := String → Option String

/-- Source `show_results` (main.py lines 132-136): print the JSON dump to the
console, then `open(output, "w")` (truncating overwrite) and dump the same
value into the file.  Returns the console output and the new file system. -/
def show_results (fs : FileSystem) (output : String)
    (res : List (String × Option ProfileRecord)) : String × FileSystem :=
  let console := jsonDumpResult res
  let newFs : FileSystem :=
    fun p => if p = output then some (jsonDumpResult res) else fs p
  (console, newFs)

/-! ### Concrete environments and users used by witnesses and counterexamples -/

/-- A user with every flag off, parameterised by id, access hash, phone and
status. -/
def mkUser (id access_hash : Int) (phone : Option String) (status : UserStatus) : User :=
  ⟨id, access_hash, none, none, none, none, false, false, false, false, false,
    false, false, none, status, false, phone⟩

/-- Environment where no number has an account: peer resolution always raises
`ValueError` and imports create nothing. -/
def envNone : Env :=
  ⟨fun _ => .error .valueError, fun _ => .ok [], fun _ => none⟩

/-- Environment where peer resolution always fails with a non-`ValueError`
remote error. -/
def envRemoteFail : Env :=
  ⟨fun _ => .error (.remote "boom"), fun _ => .ok [], fun _ => none⟩

/-- A concrete online user. -/
def uOnline : User := mkUser 7 70 (some "1555") (.online 0)

/-- Environment where every number resolves to peer 7 owned by `uOnline`. -/
def envOnline : Env :=
  ⟨fun _ => .ok 7, fun _ => .ok [uOnline], fun _ => some uOnline⟩

/-- A pre-existing contact with phone 999. -/
def uContact : User := mkUser 1 10 (some "999") .recently

/-- A pre-existing contact with phone 1555. -/
def uContact1555 : User := mkUser 1 10 (some "1555") .recently

/-- A contact whose `phone` is the empty string (falsy in Python). -/
def uEmptyPhone : User := mkUser 4 40 (some "") .recently

/-- An account the service creates for an imported number. -/
def uImported : User := mkUser 2 20 (some "1555") .recently

/-- A second imported account, distinct id from `uImported`. -/
def uImported2 : User := mkUser 3 30 (some "1666") .recently

/-- Environment whose imports succeed with `uImported` and where fetching
the number 1555 raises a remote error while any other number is not found. -/
def envFetchBoom : Env :=
  ⟨fun p => if p = "1555" then .error (.remote "boom") else .error .valueError,
   fun _ => .ok [], fun _ => some uImported⟩

/-- Environment where imports resolve 1666 to `uImported2` and anything else
to `uImported`, and every fetch reports not-found. -/
def envTwoAccounts : Env :=
  ⟨fun _ => .error .valueError, fun _ => .ok [],
   fun p => if p = "1666" then some uImported2 else some uImported⟩

/-! ### Helper lemmas -/

/-- A successful batch fetch returns one entry per requested number, keyed in
request order. -/
theorem fetchAll_ok_keys (env : Env) :
    ∀ (ps : List String) (l : List (String × Option ProfileRecord)),
      fetchAll env ps = .ok l → l.map Prod.fst = ps := by
  intro ps
  induction ps with
  | nil =>
    intro l h
    simp [fetchAll] at h
    simp [← h]
  | cons p ps ih =>
    intro l h
    unfold fetchAll at h
    cases hg : get_user_info env p with
    | error e => simp [hg] at h
    | ok r =>
      simp only [hg] at h
      cases hf : fetchAll env ps with
      | error e => simp [hf] at h
      | ok rest =>
        simp only [hf] at h
        cases h
        simp [ih rest hf]

/-- If fetching any requested number raises, the whole batch fetch raises. -/
theorem fetchAll_error_of_mem (env : Env) (e : RpcError) :
    ∀ (ps : List String) (p : String), p ∈ ps → get_user_info env p = .error e →
      ∃ e', fetchAll env ps = .error e' := by
  intro ps
  induction ps with
  | nil => intro p hp; simp at hp
  | cons q ps ih =>
    intro p hp he
    rcases List.mem_cons.mp hp with h | h
    · subst h
      exact ⟨e, by simp [fetchAll, he]⟩
    · cases hg : get_user_info env q with
      | error e' => exact ⟨e', by simp [fetchAll, hg]⟩
      | ok r =>
        rcases ih p h he with ⟨e', hf⟩
        exact ⟨e', by simp [fetchAll, hg, hf]⟩

/-- The numbers the run passes to `ImportContactsRequest`. -/
def runMissing (contacts0 : List User) (s : String) : List String :=
  _get_numbers_not_in_contacts contacts0 (cleanedNumbers s)

theorem run_result (env : Env) (cs0 : List User) (pn : Option String) (stdin : String) :
    (validate_users env cs0 pn stdin).result =
      fetchAll env (cleanedNumbers (effectiveInput pn stdin)) := rfl

theorem run_importCalled (env : Env) (cs0 : List User) (pn : Option String) (stdin : String) :
    (validate_users env cs0 pn stdin).importCalled =
      !(runMissing cs0 (effectiveInput pn stdin)).isEmpty := rfl

theorem run_cleanupRan (env : Env) (cs0 : List User) (pn : Option String) (stdin : String) :
    (validate_users env cs0 pn stdin).cleanupRan =
      (validate_users env cs0 pn stdin).importCalled := rfl

theorem run_importedPhones (env : Env) (cs0 : List User) (pn : Option String) (stdin : String) :
    (validate_users env cs0 pn stdin).importedPhones =
      (if !(runMissing cs0 (effectiveInput pn stdin)).isEmpty then
        runMissing cs0 (effectiveInput pn stdin) else []) := rfl

theorem run_importedUsers (env : Env) (cs0 : List User) (pn : Option String) (stdin : String) :
    (validate_users env cs0 pn stdin).importedUsers =
      (if !(runMissing cs0 (effectiveInput pn stdin)).isEmpty then
        _create_temp_contacts env (runMissing cs0 (effectiveInput pn stdin)) else []) := rfl

theorem run_deleted (env : Env) (cs0 : List User) (pn : Option String) (stdin : String) :
    (validate_users env cs0 pn stdin).deleted =
      (if !(runMissing cs0 (effectiveInput pn stdin)).isEmpty then
        (validate_users env cs0 pn stdin).importedUsers.map
          (fun user => (user.id, user.access_hash)) else []) := rfl

theorem run_finalContacts (env : Env) (cs0 : List User) (pn : Option String) (stdin : String) :
    (validate_users env cs0 pn stdin).finalContacts =
      (if !(runMissing cs0 (effectiveInput pn stdin)).isEmpty then
        (cs0 ++ (validate_users env cs0 pn stdin).importedUsers).filter
          (fun c => !(validate_users env cs0 pn stdin).deleted.any (fun p => p.1 = c.id))
      else cs0 ++ (validate_users env cs0 pn stdin).importedUsers) := rfl


/-! ### Claim theorems -/

/-- C3: for every input string, including strings with duplicate numbers, the
run parses by removing spaces, splitting on commas and deduplicating, and a
returned ResultSet has each distinct normalised number as a key exactly once,
covering every piece of the input and nothing else. -/
theorem c3_resultset_keys_dedup (env : Env) (cs0 : List User) (pn : Option String)
    (stdin : String) (l : List (String × Option ProfileRecord))
    (h : (validate_users env cs0 pn stdin).result = .ok l) :
    l.map Prod.fst = cleanedNumbers (effectiveInput pn stdin) ∧
    (l.map Prod.fst).Nodup ∧
    (∀ x, x ∈ l.map Prod.fst ↔ x ∈ pySplitComma (stripSpaces (effectiveInput pn stdin))) := by
  rw [run_result] at h
  have hk := fetchAll_ok_keys env _ l h
  refine ⟨hk, ?_, ?_⟩
  · rw [hk]
    exact List.nodup_dedup _
  · intro x
    rw [hk]
    exact List.mem_dedup

/-- Witness for C3 on the spec's duplicate example. -/
theorem c3_resultset_keys_dedup_witness :
    ([(("+1555" : String), (none : Option ProfileRecord))].map Prod.fst =
        cleanedNumbers (effectiveInput (some "+1555,+1555, +1555") "")) ∧
    ([(("+1555" : String), (none : Option ProfileRecord))].map Prod.fst).Nodup ∧
    (∀ x, x ∈ [(("+1555" : String), (none : Option ProfileRecord))].map Prod.fst ↔
      x ∈ pySplitComma (stripSpaces (effectiveInput (some "+1555,+1555, +1555") ""))) :=
  c3_resultset_keys_dedup envNone [] (some "+1555,+1555, +1555") "" [("+1555", none)] rfl

/-- C4: `get_user_info` returns the empty record without raising exactly when
peer resolution fails with the not-found `ValueError`; any other failure of a
remote call propagates to the caller. -/
theorem c4_fetch_notfound_empty (env : Env) (pn : String) :
    (get_user_info env pn = .ok none ↔ env.get_peer_id pn = .error .valueError) ∧
    (∀ e, e ≠ RpcError.valueError → env.get_peer_id pn = .error e →
      get_user_info env pn = .error e) ∧
    (∀ pid e, env.get_peer_id pn = .ok pid → env.getFullUser pid = .error e →
      get_user_info env pn = .error e) := by
  refine ⟨⟨?_, ?_⟩, ?_, ?_⟩
  · intro h
    cases hg : env.get_peer_id pn with
    | error e =>
      cases e with
      | valueError => rfl
      | indexError => simp [get_user_info, hg] at h
      | remote m => simp [get_user_info, hg] at h
    | ok pid =>
      cases hf : env.getFullUser pid with
      | error e => simp [get_user_info, hg, hf] at h
      | ok us =>
        cases us with
        | nil => simp [get_user_info, hg, hf] at h
        | cons u rest => simp [get_user_info, hg, hf] at h
  · intro h
    simp [get_user_info, h]
  · intro e hne h
    cases e with
    | valueError => exact absurd rfl hne
    | indexError => simp [get_user_info, h]
    | remote m => simp [get_user_info, h]
  · intro pid e h1 h2
    simp [get_user_info, h1, h2]

/-- Witness for C4: a not-found number yields the empty record, a remote
failure propagates. -/
theorem c4_fetch_notfound_empty_witness :
    get_user_info envNone "1555" = .ok none ∧
    get_user_info envRemoteFail "1555" = .error (.remote "boom") :=
  ⟨(c4_fetch_notfound_empty envNone "1555").1.mpr rfl,
   (c4_fetch_notfound_empty envRemoteFail "1555").2.1 (.remote "boom") (by decide) rfl⟩

/-- C5: the Status Formatter is a pure total mapping sending each known
variant to its fixed label, the offline variant to its timestamp formatted
with the pattern of
the source code, and unrecognized variants to the fallback label; and the
`user_was_online` field produced by a successful fetch is this mapping
applied to the account's raw status. -/
theorem c5_status_formatter :
    get_human_readable_status .empty = "Unknown" ∧
    (∀ e, get_human_readable_status (.online e) = "Currently online") ∧
    (∀ d, get_human_readable_status (.offline d) = strftimeFmt d) ∧
    get_human_readable_status .recently = "Last seen recently" ∧
    get_human_readable_status .lastWeek = "Last seen last week" ∧
    get_human_readable_status .lastMonth = "Last seen last month" ∧
    (∀ tag, get_human_readable_status (.other tag) = "Unknown status returned") ∧
    (∀ env pn pid u rest, env.get_peer_id pn = .ok pid →
      env.getFullUser pid = .ok (u :: rest) →
      ∃ r, get_user_info env pn = .ok (some r) ∧
        r.user_was_online = get_human_readable_status u.status) := by
  refine ⟨rfl, fun _ => rfl, fun _ => rfl, rfl, rfl, rfl, fun _ => rfl, ?_⟩
  intro env pn pid u rest h1 h2
  exact ⟨mkProfileRecord pid u, by simp [get_user_info, h1, h2], rfl⟩

/-- Witness for C5: a concrete fetch against an online account. -/
theorem c5_status_formatter_witness :
    ∃ r, get_user_info envOnline "1555" = .ok (some r) ∧
      r.user_was_online = get_human_readable_status uOnline.status :=
  c5_status_formatter.2.2.2.2.2.2.2 envOnline "1555" 7 uOnline [] rfl rfl

/-- C1: for every run, if the import step was reached the deletion cleanup is
issued — covering both the success path and every aborted fetch — the
deletion request covers the whole import record, an exception during any
fetch aborts the whole batch, and an aborted batch returns no partial
ResultSet. -/
theorem c1_cleanup_every_exit_path (env : Env) (cs0 : List User) (pn : Option String)
    (stdin : String) :
    ((validate_users env cs0 pn stdin).importCalled = true →
      (validate_users env cs0 pn stdin).cleanupRan = true ∧
      (validate_users env cs0 pn stdin).deleted =
        (validate_users env cs0 pn stdin).importedUsers.map
          (fun user => (user.id, user.access_hash))) ∧
    (∀ p e, p ∈ cleanedNumbers (effectiveInput pn stdin) →
      get_user_info env p = .error e →
      ∃ e', (validate_users env cs0 pn stdin).result = .error e') ∧
    (∀ e l, (validate_users env cs0 pn stdin).result = .error e →
      (validate_users env cs0 pn stdin).result ≠ .ok l) := by
  refine ⟨?_, ?_, ?_⟩
  · intro h
    rw [run_importCalled] at h
    refine ⟨by rw [run_cleanupRan, run_importCalled]; exact h, ?_⟩
    rw [run_deleted]
    simp [h]
  · intro p e hp he
    rw [run_result]
    exact fetchAll_error_of_mem env e _ p hp he
  · intro e l h1 h2
    rw [h1] at h2
    exact Except.noConfusion h2

/-- Witness for C1: a three-number batch where one fetch raises a remote
error; the batch aborts yet the full deletion request is still issued. -/
theorem c1_cleanup_every_exit_path_witness :
    ((validate_users envFetchBoom [] (some "1555,1666,1777") "").cleanupRan = true ∧
      (validate_users envFetchBoom [] (some "1555,1666,1777") "").deleted =
        (validate_users envFetchBoom [] (some "1555,1666,1777") "").importedUsers.map
          (fun user => (user.id, user.access_hash))) ∧
    (∃ e', (validate_users envFetchBoom [] (some "1555,1666,1777") "").result = .error e') := by
  have h := c1_cleanup_every_exit_path envFetchBoom [] (some "1555,1666,1777") ""
  exact ⟨h.1 rfl, h.2.1 "1555" (.remote "boom") (by decide) rfl⟩

/-- Deleting, from the contact list extended by the imported users, exactly
the imported users' ids restores the original contact list, provided imported
ids are fresh. -/
theorem roundtrip_core (cs0 us : List User)
    (hfresh : ∀ u ∈ us, ∀ c ∈ cs0, u.id ≠ c.id) :
    (cs0 ++ us).filter
      (fun c => !(us.map (fun u => (u.id, u.access_hash))).any (fun p => p.1 = c.id)) = cs0 := by
  rw [List.filter_append]
  have h1 : cs0.filter
      (fun c => !(us.map (fun u => (u.id, u.access_hash))).any (fun p => p.1 = c.id)) = cs0 := by
    apply List.filter_eq_self.mpr
    intro c hc
    simp only [Bool.not_eq_true', List.any_eq_false, List.mem_map, decide_eq_true_eq]
    rintro p ⟨u, hu, rfl⟩
    exact hfresh u hu c hc
  have h2 : us.filter
      (fun c => !(us.map (fun u => (u.id, u.access_hash))).any (fun p => p.1 = c.id)) = [] := by
    apply List.filter_eq_nil_iff.mpr
    intro u hu
    simp only [Bool.not_eq_true', Bool.not_eq_false, List.any_eq_true, List.mem_map,
      decide_eq_true_eq]
    exact ⟨(u.id, u.access_hash), ⟨u, hu, rfl⟩, rfl⟩
  rw [h1, h2, List.append_nil]

/-- C2: a run leaves the contact list exactly as it found it — every contact
created by the import is deleted and nothing else is touched — whether or not
the fetch phase aborted, provided the accounts the import creates are not
already contacts. -/
theorem c2_contactlist_roundtrip (env : Env) (cs0 : List User) (pn : Option String)
    (stdin : String)
    (hfresh : ∀ n u, env.accountFor n = some u → ∀ c ∈ cs0, u.id ≠ c.id) :
    (validate_users env cs0 pn stdin).finalContacts = cs0 := by
  rw [run_finalContacts]
  cases hb : (runMissing cs0 (effectiveInput pn stdin)).isEmpty with
  | true =>
    have hu : (validate_users env cs0 pn stdin).importedUsers = [] := by
      rw [run_importedUsers]
      simp [hb]
    simp [hb, hu]
  | false =>
    have hu : (validate_users env cs0 pn stdin).importedUsers =
        _create_temp_contacts env (runMissing cs0 (effectiveInput pn stdin)) := by
      rw [run_importedUsers]
      simp [hb]
    have hd : (validate_users env cs0 pn stdin).deleted =
        (validate_users env cs0 pn stdin).importedUsers.map
          (fun user => (user.id, user.access_hash)) := by
      rw [run_deleted]
      simp [hb]
    simp only [hb, Bool.not_false, if_true, hd, hu]
    apply roundtrip_core
    intro u hu' c hc
    rcases List.mem_filterMap.mp hu' with ⟨n, _, hacc⟩
    exact hfresh n u hacc c hc

/-- Witness for C2: one pre-existing contact, one imported number with a
fresh id; the final contact list is the original singleton. -/
theorem c2_contactlist_roundtrip_witness :
    (validate_users envTwoAccounts [uContact] (some "1555") "").finalContacts = [uContact] := by
  apply c2_contactlist_roundtrip
  intro n u hacc c hc
  have hc' : c = uContact := by simpa using hc
  subst hc'
  by_cases hn : n = "1666"
  · rw [show envTwoAccounts.accountFor n = some uImported2 by simp [envTwoAccounts, hn]] at hacc
    cases hacc
    decide
  · rw [show envTwoAccounts.accountFor n = some uImported by simp [envTwoAccounts, hn]] at hacc
    cases hacc
    decide

/-- C9: the deletion request is built from exactly the users of the import
record — one `(user_id, access_hash)` entry per returned user — and
the import record holds precisely the accounts the service created for the
submitted numbers, so a submitted number with no returned user contributes no
deletion entry. -/
theorem c9_deletion_matches_import_record (env : Env) (cs0 : List User)
    (pn : Option String) (stdin : String) :
    (validate_users env cs0 pn stdin).deleted =
      (validate_users env cs0 pn stdin).importedUsers.map
        (fun user => (user.id, user.access_hash)) ∧
    (validate_users env cs0 pn stdin).importedUsers =
      (validate_users env cs0 pn stdin).importedPhones.filterMap env.accountFor := by
  constructor
  · rw [run_deleted]
    cases hb : (runMissing cs0 (effectiveInput pn stdin)).isEmpty with
    | true =>
      have hu : (validate_users env cs0 pn stdin).importedUsers = [] := by
        rw [run_importedUsers]
        simp [hb]
      simp [hb, hu]
    | false => simp [hb]
  · rw [run_importedUsers, run_importedPhones]
    cases hb : (runMissing cs0 (effectiveInput pn stdin)).isEmpty with
    | true => simp [hb]
    | false => simp [hb, _create_temp_contacts]

/-- C6: a number already present as a contact is never passed to the import
call, and — as long as the accounts created for the actually imported numbers
have different ids — its account never appears in the deletion request. -/
theorem c6_preexisting_contacts_untouched (env : Env) (cs0 : List User)
    (pn : Option String) (stdin : String) (n : String)
    (_hn : n ∈ cleanedNumbers (effectiveInput pn stdin))
    (hc : _is_phone_number_a_contact cs0 n = true) :
    n ∉ (validate_users env cs0 pn stdin).importedPhones ∧
    (∀ u, env.accountFor n = some u →
      (∀ m v, m ∈ (validate_users env cs0 pn stdin).importedPhones →
        env.accountFor m = some v → v.id ≠ u.id) →
      (u.id, u.access_hash) ∉ (validate_users env cs0 pn stdin).deleted) := by
  have hmiss : n ∉ runMissing cs0 (effectiveInput pn stdin) := by
    intro hmem
    have hpred := List.of_mem_filter hmem
    simp [hc] at hpred
  constructor
  · rw [run_importedPhones]
    cases hb : (runMissing cs0 (effectiveInput pn stdin)).isEmpty with
    | true => simp [hb]
    | false => simpa [hb] using hmiss
  · intro u _ hdist hmem
    rw [run_deleted] at hmem
    cases hb : (runMissing cs0 (effectiveInput pn stdin)).isEmpty with
    | true => simp [hb] at hmem
    | false =>
      simp only [hb, Bool.not_false, if_true] at hmem
      rcases List.mem_map.mp hmem with ⟨v, hv, heq⟩
      have hvid : v.id = u.id := congrArg Prod.fst heq
      rw [run_importedUsers] at hv
      simp only [hb, Bool.not_false, if_true] at hv
      rcases List.mem_filterMap.mp hv with ⟨m, hm, hacc⟩
      refine hdist m v ?_ hacc hvid
      rw [run_importedPhones]
      simp [hb]
      exact hm

/-- Witness for C6: with contact 1555 and input 1555,1666, only 1666
gets imported and only its account is deleted. -/
theorem c6_preexisting_contacts_untouched_witness :
    ("1555" : String) ∉
      (validate_users envTwoAccounts [uContact1555] (some "1555,1666") "").importedPhones ∧
    (uImported.id, uImported.access_hash) ∉
      (validate_users envTwoAccounts [uContact1555] (some "1555,1666") "").deleted := by
  have h := c6_preexisting_contacts_untouched envTwoAccounts [uContact1555]
    (some "1555,1666") "" "1555" (by decide) (by decide)
  refine ⟨h.1, h.2 uImported rfl ?_⟩
  intro m v hm hacc
  have hp : (validate_users envTwoAccounts [uContact1555]
      (some "1555,1666") "").importedPhones = ["1666"] := rfl
  rw [hp] at hm
  have hm' : m = "1666" := by simpa using hm
  subst hm'
  have hv : v = uImported2 := by
    rw [show envTwoAccounts.accountFor "1666" = some uImported2 from rfl] at hacc
    exact (Option.some_injective _ hacc).symm
  subst hv
  decide

/-- C8: the Result Reporter prints the `indent=4` JSON rendering of the
result set to the console, writes the identical text to the destination file
regardless of the file's prior contents (truncating overwrite, no merge), and
touches no other path. -/
theorem c8_report_identical_overwrite (fs : FileSystem) (output : String)
    (res : List (String × Option ProfileRecord)) :
    (show_results fs output res).1 = jsonDumpResult res ∧
    (show_results fs output res).2 output = some (jsonDumpResult res) ∧
    (∀ fs', (show_results fs output res).2 output = (show_results fs' output res).2 output) ∧
    (∀ p, p ≠ output → (show_results fs output res).2 p = fs p) := by
  refine ⟨rfl, by simp [show_results], fun fs' => by simp [show_results], ?_⟩
  intro p hp
  simp [show_results, hp]

/-- Witness for C8: a one-entry result set written over a non-empty prior
file; an unrelated path is untouched. -/
theorem c8_report_identical_overwrite_witness :
    (show_results (fun _ => some "old") "results.json" [("+15551234567", none)]).1 =
      jsonDumpResult [("+15551234567", none)] ∧
    (show_results (fun _ => some "old") "results.json" [("+15551234567", none)]).2 "other" =
      some "old" := by
  have h := c8_report_identical_overwrite (fun _ => some "old") "results.json"
    [("+15551234567", none)]
  exact ⟨h.1, h.2.2.2 "other" (by decide)⟩

/-- C7 counterexample: the claim says `"+1555"` and `"1555"` denote the same
ResultSet key, but a run over the input `"+1555,1555"` returns a ResultSet
with the two spellings as two distinct keys, even though their
`"+"`-and-space-stripped forms coincide. -/
theorem c7_key_identity_counterexample :
    (validate_users envNone [] (some "+1555,1555") "").result =
      .ok [("+1555", none), ("1555", none)] ∧
    stripPlusSpaces "+1555" = stripPlusSpaces "1555" ∧
    ("+1555" : String) ≠ "1555" := by
  refine ⟨rfl, rfl, by decide⟩

/-- C7 amended: the key identity for deduplication and ResultSet lookup is
the space-stripped string with any `"+"` preserved — distinct spellings stay
distinct keys — while the `"+"`-and-space-stripped normalisation is used only
by the contact-membership check. -/
theorem c7_key_identity_amended (env : Env) (cs0 : List User) (pn : Option String)
    (stdin : String) (l : List (String × Option ProfileRecord))
    (h : (validate_users env cs0 pn stdin).result = .ok l) :
    (l.map Prod.fst).Nodup ∧
    (∀ x, x ∈ l.map Prod.fst ↔ x ∈ pySplitComma (stripSpaces (effectiveInput pn stdin))) ∧
    (∀ n, _is_phone_number_a_contact cs0 n =
      cs0.any (fun c => normalizedContactNumber c.phone = some (stripPlusSpaces n))) := by
  rw [run_result] at h
  have hk := fetchAll_ok_keys env _ l h
  refine ⟨?_, ?_, fun n => rfl⟩
  · rw [hk]
    exact List.nodup_dedup _
  · intro x
    rw [hk]
    exact List.mem_dedup

/-- Witness for C7 amended: both spellings appear as keys of the run over
`"+1555,1555"`. -/
theorem c7_key_identity_amended_witness :
    (([(("+1555" : String), (none : Option ProfileRecord)),
        (("1555" : String), (none : Option ProfileRecord))].map Prod.fst).Nodup) ∧
    (∀ x, x ∈ [(("+1555" : String), (none : Option ProfileRecord)),
        (("1555" : String), (none : Option ProfileRecord))].map Prod.fst ↔
      x ∈ pySplitComma (stripSpaces (effectiveInput (some "+1555,1555") ""))) ∧
    (∀ n, _is_phone_number_a_contact ([] : List User) n =
      ([] : List User).any
        (fun c => normalizedContactNumber c.phone = some (stripPlusSpaces n))) :=
  c7_key_identity_amended envNone [] (some "+1555,1555") ""
    [("+1555", none), ("1555", none)] rfl

/-- C10 counterexample: the claim's biconditional fails for a contact whose
phone is the empty string: that phone is present and its space-stripped form
equals the stripped input `"+"`, yet the check returns false, because Python
truthiness treats the empty string like an absent phone. -/
theorem c10_iscontact_counterexample :
    _is_phone_number_a_contact [uEmptyPhone] "+" = false ∧
    uEmptyPhone.phone = some "" ∧
    stripSpaces "" = stripPlusSpaces "+" := by
  refine ⟨rfl, rfl, rfl⟩

/-- C10 amended: the membership check is total and never raises; a contact
whose phone is absent or empty is treated as non-matching; and the check
returns true exactly when some contact has a present, non-empty phone whose
space-stripped form equals the input with `"+"` and spaces stripped. -/
theorem c10_iscontact_amended (contacts : List User) (n : String) :
    _is_phone_number_a_contact contacts n = true ↔
      ∃ c ∈ contacts, ∃ s, c.phone = some s ∧ s ≠ "" ∧
        stripSpaces s = stripPlusSpaces n := by
  unfold _is_phone_number_a_contact
  rw [List.any_eq_true]
  constructor
  · rintro ⟨c, hc, hpred⟩
    simp only [decide_eq_true_eq] at hpred
    refine ⟨c, hc, ?_⟩
    cases hph : c.phone with
    | none => simp [normalizedContactNumber, hph] at hpred
    | some s =>
      rw [hph] at hpred
      by_cases hs : s = ""
      · simp [normalizedContactNumber, hs] at hpred
      · simp only [normalizedContactNumber, if_neg hs] at hpred
        exact ⟨s, rfl, hs, Option.some_injective _ hpred⟩
  · rintro ⟨c, hc, s, hph, hs, heq⟩
    refine ⟨c, hc, ?_⟩
    simp only [decide_eq_true_eq]
    simp [normalizedContactNumber, hph, hs, heq]
